import Mathlib

/-!
Shallow embedding of `layout_generator.py`.

Coordinates and dimensions are modelled as rationals; the Euclidean
rectangle-to-rectangle distance is `Real.sqrt` of the (rational) squared
axis gaps.  Every comparison the program makes against a distance is
implemented on the squared distance (`distSq`), which is exactly equivalent
because both sides are nonnegative (lemmas `rectangle_distance_lt_iff` and
`rectangle_distance_le_iff` prove the bridge).  Python's `random.uniform(a, b)`
(`a + (b - a) * random()`) is modelled by `uniform` applied to an explicit
stream of unit draws, and a `ValueError` raised by `min`/`max` of an empty
sequence is modelled with `Option`.
-/

namespace LayoutGen

/-- Site width (`SITE_WIDTH = 200`). -/
def SITE_WIDTH : ℚ := 200

/-- Site height (`SITE_HEIGHT = 140`). -/
def SITE_HEIGHT : ℚ := 140

/-- Tower A (Primary) width and height (`TOWER_A_SIZE = (30, 20)`). -/
def TOWER_A_SIZE : ℚ × ℚ := (30, 20)

/-- Tower B (Secondary) width and height (`TOWER_B_SIZE = (20, 20)`). -/
def TOWER_B_SIZE : ℚ × ℚ := (20, 20)

/-- Boundary buffer (`BOUNDARY_BUFFER = 10`). -/
def BOUNDARY_BUFFER : ℚ := 10

/-- Minimum pairwise building distance (`MIN_BUILDING_DISTANCE = 15`). -/
def MIN_BUILDING_DISTANCE : ℚ := 15

/-- Neighbor radius (`NEIGHBOR_DISTANCE = 60`). -/
def NEIGHBOR_DISTANCE : ℚ := 60

/-- Plaza side length (`PLAZA_SIZE = 40`). -/
def PLAZA_SIZE : ℚ := 40

/-- Plaza lower-left x (`PLAZA_X = (SITE_WIDTH - PLAZA_SIZE) / 2`). -/
def PLAZA_X : ℚ := (SITE_WIDTH - PLAZA_SIZE) / 2

/-- Plaza lower-left y (`PLAZA_Y = (SITE_HEIGHT - PLAZA_SIZE) / 2`). -/
def PLAZA_Y : ℚ := (SITE_HEIGHT - PLAZA_SIZE) / 2

/-- Building kind: `'A'` (Primary) or `'B'` (Secondary). -/
inductive BType where
  | A
  | B
deriving DecidableEq

/-- A rectangle record `{'type', 'w', 'h', 'x', 'y'}`: kind, width, height and
lower-left corner. -/
structure Rect where
  type : BType
  w : ℚ
  h : ℚ
  x : ℚ
  y : ℚ
deriving DecidableEq

/-- The fixed central plaza rectangle built inside `check_partial_constraints`.
The Python dict for the plaza has no `'type'` key and its kind is never
inspected; the `B` stored here is an arbitrary filler. -/
def plaza : Rect :=
  { type := BType.B, w := PLAZA_SIZE, h := PLAZA_SIZE, x := PLAZA_X, y := PLAZA_Y }

/-- Transcription of `rectangles_overlap`: rectangles do NOT overlap iff one
lies fully left/right/above/below the other (edge-touching is not
overlapping). -/
def rectangles_overlap (r1 r2 : Rect) : Bool :=
  !(decide (r1.x + r1.w ≤ r2.x) || decide (r2.x + r2.w ≤ r1.x) ||
    decide (r1.y + r1.h ≤ r2.y) || decide (r2.y + r2.h ≤ r1.y))

/-- Horizontal gap `dx = max(r2.x - (r1.x + r1.w), r1.x - (r2.x + r2.w), 0)`
from `rectangle_distance`. -/
def gap_x (r1 r2 : Rect) : ℚ :=
  max (r2.x - (r1.x + r1.w)) (max (r1.x - (r2.x + r2.w)) 0)

/-- Vertical gap `dy = max(r2.y - (r1.y + r1.h), r1.y - (r2.y + r2.h), 0)`
from `rectangle_distance`. -/
def gap_y (r1 r2 : Rect) : ℚ :=
  max (r2.y - (r1.y + r1.h)) (max (r1.y - (r2.y + r2.h)) 0)

/-- The squared distance `dx * dx + dy * dy` under the square root in
`rectangle_distance`; rational, hence decidably comparable. -/
def distSq (r1 r2 : Rect) : ℚ :=
  gap_x r1 r2 * gap_x r1 r2 + gap_y r1 r2 * gap_y r1 r2

/-- Transcription of `rectangle_distance`: `math.sqrt(dx * dx + dy * dy)`. -/
noncomputable def rectangle_distance (r1 r2 : Rect) : ℝ :=
  Real.sqrt ((distSq r1 r2 : ℚ) : ℝ)

/-- The inner `for j in range(i + 1, len(buildings))` loop of
`check_partial_constraints`, for one fixed `i`, followed by the outer loop on
the rest: true iff no pair (in list order) is strictly closer than
`MIN_BUILDING_DISTANCE`.  The comparison `rectangle_distance < 15` is taken
on squares (see `rectangle_distance_lt_iff`). -/
def no_close_pair : List Rect → Bool
  | [] => true
  | b :: rest =>
      rest.all (fun b2 => !decide (distSq b b2 < MIN_BUILDING_DISTANCE ^ 2)) &&
      no_close_pair rest

/-- Transcription of `check_partial_constraints`: false if some building
overlaps the plaza, false if some unordered pair of buildings is strictly
closer than `MIN_BUILDING_DISTANCE`, true otherwise. -/
def check_partial_constraints (buildings : List Rect) : Bool :=
  buildings.all (fun b => !rectangles_overlap b plaza) && no_close_pair buildings

/-- Python's `random.uniform(a, b) = a + (b - a) * random()`, with the unit
draw `u` made explicit. -/
def uniform (a b u : ℚ) : ℚ := a + (b - a) * u

/-- Transcription of the nested `random_building` of `generate_layout`: look
up the kind's fixed width/height and sample `x` in
`[BOUNDARY_BUFFER, SITE_WIDTH - w - BOUNDARY_BUFFER]` and `y` in
`[BOUNDARY_BUFFER, SITE_HEIGHT - h - BOUNDARY_BUFFER]`; the pair `u` holds
the two unit draws consumed by the two `random.uniform` calls. -/
def random_building (b_type : BType) (u : ℚ × ℚ) : Rect :=
  let wh := if b_type = BType.A then TOWER_A_SIZE else TOWER_B_SIZE
  { type := b_type
    w := wh.1
    h := wh.2
    x := uniform BOUNDARY_BUFFER (SITE_WIDTH - wh.1 - BOUNDARY_BUFFER) u.1
    y := uniform BOUNDARY_BUFFER (SITE_HEIGHT - wh.2 - BOUNDARY_BUFFER) u.2 }

/-- Drop the first draw of a stream. -/
def shift (s : ℕ → ℚ × ℚ) : ℕ → ℚ × ℚ := fun n => s (n + 1)

/-- The inner `for _ in range(max_attempts)` retry loop of `generate_layout`:
sample a candidate, keep it if the accumulated set stays feasible, else retry
with the rest of the stream; `none` when the attempt budget is exhausted.
Returns the placed candidate together with the unconsumed stream. -/
def try_place (buildings : List Rect) (b_type : BType) :
    ℕ → (ℕ → ℚ × ℚ) → Option (Rect × (ℕ → ℚ × ℚ))
  | 0, _ => none
  | n + 1, s =>
      let candidate := random_building b_type (s 0)
      if check_partial_constraints (buildings ++ [candidate]) then
        some (candidate, shift s)
      else
        try_place buildings b_type n (shift s)

/-- The outer `for b_type in ['A'] * num_a + ['B'] * num_b` loop of
`generate_layout`: place each work-list item via `try_place`, appending the
committed candidate; `none` as soon as one item exhausts its attempts. -/
def place_all (max_attempts : ℕ) :
    List BType → List Rect → (ℕ → ℚ × ℚ) → Option (List Rect × (ℕ → ℚ × ℚ))
  | [], buildings, s => some (buildings, s)
  | t :: ts, buildings, s =>
      match try_place buildings t max_attempts s with
      | none => none
      | some (c, s2) => place_all max_attempts ts (buildings ++ [c]) s2

/-- The final relational check of `generate_layout` for one Primary `a`:
`any(rectangle_distance(a, b) <= NEIGHBOR_DISTANCE for b in buildings if
b['type'] == 'B')`, with the comparison taken on squares (see
`rectangle_distance_le_iff`). -/
def neighbor_ok (buildings : List Rect) (a : Rect) : Bool :=
  (buildings.filter (fun b => b.type == BType.B)).any
    (fun b => decide (distSq a b ≤ NEIGHBOR_DISTANCE ^ 2))

/-- Transcription of `generate_layout` (the Python default is
`max_attempts = 2500`; here it is always passed explicitly), over an explicit
stream `s` of unit draws standing for the `random.uniform` calls: place all
items, then fail unless every `'A'` building has some `'B'` building within
`NEIGHBOR_DISTANCE`. -/
def generate_layout (num_a num_b max_attempts : ℕ) (s : ℕ → ℚ × ℚ) :
    Option (List Rect) :=
  match place_all max_attempts
      (List.replicate num_a BType.A ++ List.replicate num_b BType.B) [] s with
  | none => none
  | some (buildings, _) =>
      if (buildings.filter (fun b => b.type == BType.A)).all (neighbor_ok buildings) then
        some buildings
      else
        none

/-- Per-Primary proximity term of `compute_score`:
`max(0, NEIGHBOR_DISTANCE - min_dist)` as a function of the distance to the
nearest Secondary. -/
noncomputable def proximity_contrib (min_dist : ℝ) : ℝ :=
  max 0 ((NEIGHBOR_DISTANCE : ℝ) - min_dist)

/-- Python's `min` over a sequence of floats: `None` models the `ValueError`
on an empty sequence, otherwise the fold of binary `min` over the list. -/
noncomputable def py_min_r : List ℝ → Option ℝ
  | [] => none
  | x :: xs => some (xs.foldl min x)

/-- The `for a in tower_a` accumulation loop of `compute_score`: sum of
`proximity_contrib` at each Primary's distance to the nearest Secondary;
`none` models the `ValueError` raised by `min` over an empty `tower_b` as
soon as the loop body runs. -/
noncomputable def proximity_sum (tower_b : List Rect) : List Rect → Option ℝ
  | [] => some 0
  | a :: rest =>
      match py_min_r (tower_b.map (fun b => rectangle_distance a b)) with
      | none => none
      | some min_dist =>
          match proximity_sum tower_b rest with
          | none => none
          | some acc => some (proximity_contrib min_dist + acc)

/-- Transcription of `compute_score`: `none` models the `ValueError` raised
by `min` over an empty `tower_b` (when some Primary exists) or by `max`/`min`
over the empty coordinate lists of an empty layout; otherwise
`20 * len + 0.03 * total_area + 3.0 * proximity_score - 0.15 * spread_penalty`. -/
noncomputable def compute_score (buildings : List Rect) : Option ℝ :=
  let total_area : ℚ := (buildings.map (fun b => b.w * b.h)).sum
  let tower_a := buildings.filter (fun b => b.type == BType.A)
  let tower_b := buildings.filter (fun b => b.type == BType.B)
  match proximity_sum tower_b tower_a with
  | none => none
  | some proximity_score =>
      let xs := buildings.map (fun b => b.x)
      let ys := buildings.map (fun b => b.y)
      match xs.max?, xs.min?, ys.max?, ys.min? with
      | some xmax, some xmin, some ymax, some ymin =>
          some (20 * (buildings.length : ℝ) + 0.03 * (total_area : ℝ)
            + 3.0 * proximity_score
            - 0.15 * (((xmax - xmin) + (ymax - ymin) : ℚ) : ℝ))
      | _, _, _, _ => none

/-- Formalisation of the spec's boundary-containment invariant: the rectangle
lies fully within `[BOUNDARY_BUFFER, siteDim - BOUNDARY_BUFFER]` on both
axes. -/
def in_bounds (r : Rect) : Prop :=
  BOUNDARY_BUFFER ≤ r.x ∧ r.x + r.w ≤ SITE_WIDTH - BOUNDARY_BUFFER ∧
  BOUNDARY_BUFFER ≤ r.y ∧ r.y + r.h ≤ SITE_HEIGHT - BOUNDARY_BUFFER

/-- Contract of one `random()` unit draw pair feeding `random.uniform`:
each component lies in the unit interval. -/
def unit_draw (u : ℚ × ℚ) : Prop :=
  0 ≤ u.1 ∧ u.1 ≤ 1 ∧ 0 ≤ u.2 ∧ u.2 ≤ 1

/-- Two rectangles share a boundary: their closed extents meet on both axes
but they do not overlap (edge- or corner-touching). -/
def shares_boundary (r1 r2 : Rect) : Prop :=
  rectangles_overlap r1 r2 = false ∧
  r2.x ≤ r1.x + r1.w ∧ r1.x ≤ r2.x + r2.w ∧
  r2.y ≤ r1.y + r1.h ∧ r1.y ≤ r2.y + r2.h

/-- Distance from a rectangle to the nearest Secondary rectangle of a layout,
following the spec: the minimum `distance()` to any Secondary rectangle.  The
`getD 0` default is never reached when the layout has a Secondary
rectangle. -/
noncomputable def nearest_secondary_distance (a : Rect) (layout : List Rect) : ℝ :=
  (py_min_r ((layout.filter (fun b => b.type == BType.B)).map
    (fun b => rectangle_distance a b))).getD 0

/-- Spec formula for the proximity reward: sum over Primary rectangles of
`max(0, NEIGHBOR_DISTANCE - nearest_secondary_distance)`. -/
noncomputable def spec_proximity_score (layout : List Rect) : ℝ :=
  ((layout.filter (fun a => a.type == BType.A)).map
    (fun a => max 0 ((NEIGHBOR_DISTANCE : ℝ) - nearest_secondary_distance a layout))).sum

/-- Spec formula for the spread penalty: `(max x - min x) + (max y - min y)`
over all rectangle origins.  The `getD 0` defaults are never reached on a
nonempty layout. -/
def spec_spread_penalty (layout : List Rect) : ℚ :=
  ((layout.map (fun b => b.x)).max?.getD 0 - (layout.map (fun b => b.x)).min?.getD 0) +
  ((layout.map (fun b => b.y)).max?.getD 0 - (layout.map (fun b => b.y)).min?.getD 0)

/-- Concrete Primary rectangle at the lower-left of the legal interior. -/
def ex_a : Rect := { type := BType.A, w := 30, h := 20, x := 10, y := 10 }

/-- Concrete Secondary rectangle whose horizontal gap to `ex_a` is `d` (its
left edge sits `d` to the right of the right edge of `ex_a`, at the same
height). -/
def ex_b_at (d : ℚ) : Rect := { type := BType.B, w := 20, h := 20, x := 40 + d, y := 10 }

/-- Concrete Secondary rectangle 50 away from `ex_a`. -/
def ex_b : Rect := { type := BType.B, w := 20, h := 20, x := 90, y := 10 }

/-- Concrete stream of unit draws: the first pair lands `ex_a`, every later
pair lands `ex_b`. -/
def s0 : ℕ → ℚ × ℚ := fun n => if n = 0 then (0, 0) else (1/2, 0)

/-- Concrete layout consisting of a single Secondary rectangle. -/
def b_only : Rect := { type := BType.B, w := 20, h := 20, x := 10, y := 10 }

/-! Helper lemmas. -/

theorem BType_A_ne_B : BType.A ≠ BType.B := by decide

theorem BType_B_ne_A : BType.B ≠ BType.A := by decide

theorem gap_x_nonneg (r1 r2 : Rect) : 0 ≤ gap_x r1 r2 := by
  simp [gap_x, le_max_iff]

theorem gap_y_nonneg (r1 r2 : Rect) : 0 ≤ gap_y r1 r2 := by
  simp [gap_y, le_max_iff]

theorem distSq_nonneg (r1 r2 : Rect) : 0 ≤ distSq r1 r2 :=
  add_nonneg (mul_self_nonneg _) (mul_self_nonneg _)

/-- Comparing the distance with a positive rational threshold is the same as
comparing the squared distance with the squared threshold. -/
theorem rectangle_distance_lt_iff (r1 r2 : Rect) (c : ℚ) (hc : 0 < c) :
    rectangle_distance r1 r2 < (c : ℝ) ↔ distSq r1 r2 < c ^ 2 := by
  rw [rectangle_distance, Real.sqrt_lt' (by exact_mod_cast hc)]
  constructor
  · intro h
    exact_mod_cast h
  · intro h
    exact_mod_cast h

/-- Comparing the distance with a nonnegative rational threshold is the same
as comparing the squared distance with the squared threshold. -/
theorem rectangle_distance_le_iff (r1 r2 : Rect) (c : ℚ) (hc : 0 ≤ c) :
    rectangle_distance r1 r2 ≤ (c : ℝ) ↔ distSq r1 r2 ≤ c ^ 2 := by
  rw [rectangle_distance, Real.sqrt_le_left (by exact_mod_cast hc)]
  constructor
  · intro h
    exact_mod_cast h
  · intro h
    exact_mod_cast h

theorem random_building_type (t : BType) (u : ℚ × ℚ) :
    (random_building t u).type = t := rfl

theorem random_building_A (u : ℚ × ℚ) :
    random_building BType.A u =
      { type := BType.A, w := 30, h := 20,
        x := uniform 10 160 u.1, y := uniform 10 110 u.2 } := by
  simp [random_building, TOWER_A_SIZE, SITE_WIDTH, SITE_HEIGHT, BOUNDARY_BUFFER]
  norm_num

theorem random_building_B (u : ℚ × ℚ) :
    random_building BType.B u =
      { type := BType.B, w := 20, h := 20,
        x := uniform 10 170 u.1, y := uniform 10 110 u.2 } := by
  simp [random_building, TOWER_B_SIZE, SITE_WIDTH, SITE_HEIGHT, BOUNDARY_BUFFER,
    BType_B_ne_A]
  norm_num

/-- Characterisation of the pairwise half of `check_partial_constraints`. -/
theorem no_close_pair_iff (bs : List Rect) :
    no_close_pair bs = true ↔
      bs.Pairwise (fun r1 r2 => ¬ distSq r1 r2 < MIN_BUILDING_DISTANCE ^ 2) := by
  induction bs with
  | nil => simp [no_close_pair]
  | cons b rest ih =>
      simp [no_close_pair, List.pairwise_cons, ih, List.all_eq_true]

/-- Characterisation of `check_partial_constraints` as a proposition. -/
theorem check_partial_constraints_iff (bs : List Rect) :
    check_partial_constraints bs = true ↔
      (∀ b ∈ bs, rectangles_overlap b plaza = false) ∧
      bs.Pairwise (fun r1 r2 => ¬ distSq r1 r2 < MIN_BUILDING_DISTANCE ^ 2) := by
  simp [check_partial_constraints, List.all_eq_true, no_close_pair_iff bs]

/-- Everything about a candidate committed by `try_place`: it is
`random_building` at one of the stream's draws (so any property `P` carried
by such buildings holds), its kind is the requested one, the grown set
passes the constraint check, and the leftover stream consists of draws of the
input stream. -/
theorem try_place_spec (P : Rect → Prop) (D : ℚ × ℚ → Prop) (bs : List Rect)
    (t : BType) (hP : ∀ u, D u → P (random_building t u)) :
    ∀ (n : ℕ) (s : ℕ → ℚ × ℚ), (∀ k, D (s k)) →
      ∀ c s2, try_place bs t n s = some (c, s2) →
        P c ∧ c.type = t ∧ check_partial_constraints (bs ++ [c]) = true ∧
        ∀ k, D (s2 k) := by
  intro n
  induction n with
  | zero =>
      intro s hs c s2 h
      simp [try_place] at h
  | succ n ih =>
      intro s hs c s2 h
      rw [try_place] at h
      by_cases hc : check_partial_constraints (bs ++ [random_building t (s 0)]) = true
      · rw [if_pos hc] at h
        obtain ⟨rfl, rfl⟩ : random_building t (s 0) = c ∧ shift s = s2 := by
          simpa using h
        exact ⟨hP _ (hs 0), rfl, hc, fun k => hs (k + 1)⟩
      · rw [if_neg hc] at h
        exact ih (shift s) (fun k => hs (k + 1)) c s2 h

/-- Invariant of the placement loop: starting from a feasible partial layout
of `P`-buildings and a `D`-stream, a successful `place_all` returns a
feasible layout of `P`-buildings whose kind sequence extends the start's by
exactly the work list. -/
theorem place_all_spec (P : Rect → Prop) (D : ℚ × ℚ → Prop) (ma : ℕ)
    (hP : ∀ t u, D u → P (random_building t u)) :
    ∀ (ts : List BType) (bs0 : List Rect) (s : ℕ → ℚ × ℚ),
      (∀ k, D (s k)) → (∀ r ∈ bs0, P r) →
      check_partial_constraints bs0 = true →
      ∀ bs s2, place_all ma ts bs0 s = some (bs, s2) →
        (∀ r ∈ bs, P r) ∧ check_partial_constraints bs = true ∧
        bs.map Rect.type = bs0.map Rect.type ++ ts := by
  intro ts
  induction ts with
  | nil =>
      intro bs0 s hs h0 hchk bs s2 h
      obtain ⟨rfl, rfl⟩ : bs0 = bs ∧ s = s2 := by
        simpa [place_all] using h
      exact ⟨h0, hchk, by simp⟩
  | cons t ts ih =>
      intro bs0 s hs h0 hchk bs s2 h
      rw [place_all] at h
      cases htp : try_place bs0 t ma s with
      | none => rw [htp] at h; cases h
      | some cs =>
          obtain ⟨c, s1⟩ := cs
          rw [htp] at h
          obtain ⟨hPc, htype, hc, hs1⟩ :=
            try_place_spec P D bs0 t (hP t) ma s hs c s1 htp
          have h0' : ∀ r ∈ bs0 ++ [c], P r := by
            intro r hr
            rcases List.mem_append.1 hr with hr | hr
            · exact h0 r hr
            · simpa using (List.mem_singleton.1 hr) ▸ hPc
          obtain ⟨hPbs, hcbs, hmap⟩ := ih (bs0 ++ [c]) s1 hs1 h0' hc bs s2 h
          refine ⟨hPbs, hcbs, ?_⟩
          rw [hmap]
          simp [htype]

/-- C1: every layout returned (non-failure) by `generate_layout` passes
`check_partial_constraints` — no rectangle overlaps the reserved plaza and
every unordered pair keeps distance at least `MIN_BUILDING_DISTANCE` — and
every Primary rectangle has distance at most `NEIGHBOR_DISTANCE` (inclusive)
to at least one Secondary rectangle. -/
theorem generate_layout_feasible (num_a num_b max_attempts : ℕ)
    (s : ℕ → ℚ × ℚ) (bs : List Rect)
    (h : generate_layout num_a num_b max_attempts s = some bs) :
    check_partial_constraints bs = true ∧
    ∀ a ∈ bs, a.type = BType.A →
      ∃ b ∈ bs, b.type = BType.B ∧
        rectangle_distance a b ≤ (NEIGHBOR_DISTANCE : ℝ) := by
  rw [generate_layout] at h
  cases hpl : place_all max_attempts
      (List.replicate num_a BType.A ++ List.replicate num_b BType.B) [] s with
  | none => rw [hpl] at h; cases h
  | some r =>
      obtain ⟨bs0, s2⟩ := r
      rw [hpl] at h
      dsimp only at h
      by_cases hall :
          (bs0.filter (fun b => b.type == BType.A)).all (neighbor_ok bs0) = true
      · rw [if_pos hall] at h
        injection h with h
        subst h
        obtain ⟨-, hchk, -⟩ :=
          place_all_spec (fun _ => True) (fun _ => True) max_attempts
            (fun _ _ _ => trivial) _ [] s (fun _ => trivial)
            (fun r hr => trivial) rfl _ _ hpl
        refine ⟨hchk, ?_⟩
        intro a ha hA
        rw [List.all_eq_true] at hall
        have hmem := hall a (List.mem_filter.2 ⟨ha, by simp [hA]⟩)
        rw [neighbor_ok, List.any_eq_true] at hmem
        obtain ⟨b, hbmem, hble⟩ := hmem
        rw [List.mem_filter] at hbmem
        refine ⟨b, hbmem.1, by simpa using hbmem.2, ?_⟩
        rw [rectangle_distance_le_iff a b NEIGHBOR_DISTANCE
          (by norm_num [NEIGHBOR_DISTANCE])]
        exact of_decide_eq_true hble
      · rw [if_neg hall] at h
        cases h

/-- Witness for C1: a concrete successful run of `generate_layout`, whose
result satisfies both conclusions. -/
theorem generate_layout_feasible_witness :
    check_partial_constraints [ex_a, ex_b] = true ∧
    ∀ a ∈ [ex_a, ex_b], a.type = BType.A →
      ∃ b ∈ [ex_a, ex_b], b.type = BType.B ∧
        rectangle_distance a b ≤ (NEIGHBOR_DISTANCE : ℝ) :=
  generate_layout_feasible 1 1 1 s0 [ex_a, ex_b] (by
    norm_num [generate_layout, place_all, try_place, random_building_A,
      random_building_B, uniform, shift, s0, neighbor_ok, beq_iff_eq,
      BType_A_ne_B, BType_B_ne_A, ex_a, ex_b,
      check_partial_constraints, no_close_pair, rectangles_overlap, distSq,
      gap_x, gap_y, plaza, PLAZA_X, PLAZA_Y, PLAZA_SIZE, SITE_WIDTH,
      SITE_HEIGHT, MIN_BUILDING_DISTANCE, NEIGHBOR_DISTANCE, BOUNDARY_BUFFER])

/-- C9: with both requested counts zero the search returns the empty layout
as a success value (not `none`), for every attempt budget and every stream of
random draws. -/
theorem generate_layout_zero_zero (max_attempts : ℕ) (s : ℕ → ℚ × ℚ) :
    generate_layout 0 0 max_attempts s = some [] := by
  norm_num [generate_layout, place_all]

/-- C4: with at least one Primary and zero Secondary requested, the search
fails deterministically — the final relational check cannot be satisfied
because no Secondary rectangle exists — regardless of the random draws. -/
theorem generate_layout_no_secondary (num_a : ℕ) (h1 : 1 ≤ num_a)
    (max_attempts : ℕ) (s : ℕ → ℚ × ℚ) :
    generate_layout num_a 0 max_attempts s = none := by
  rw [generate_layout]
  cases hpl : place_all max_attempts
      (List.replicate num_a BType.A ++ List.replicate 0 BType.B) [] s with
  | none => rfl
  | some r =>
      obtain ⟨bs0, s2⟩ := r
      dsimp only
      obtain ⟨-, -, hmap⟩ :=
        place_all_spec (fun _ => True) (fun _ => True) max_attempts
          (fun _ _ _ => trivial) _ [] s (fun _ => trivial)
          (fun r hr => trivial) rfl _ _ hpl
      simp only [List.replicate, List.map_nil, List.nil_append,
        List.append_nil] at hmap
      have hA : ∀ b ∈ bs0, b.type = BType.A := by
        intro b hb
        have hmem : b.type ∈ bs0.map Rect.type := List.mem_map_of_mem _ hb
        rw [hmap] at hmem
        exact List.eq_of_mem_replicate hmem
      have hne : bs0 ≠ [] := by
        intro hnil
        rw [hnil] at hmap
        have hlen := congrArg List.length hmap
        simp at hlen
        omega
      have hBempty : bs0.filter (fun b => b.type == BType.B) = [] := by
        rw [List.filter_eq_nil_iff]
        intro b hb
        simp [hA b hb, BType_A_ne_B]
      have hcond :
          ((bs0.filter (fun b => b.type == BType.A)).all (neighbor_ok bs0)) = false := by
        cases hbs : bs0 with
        | nil => exact absurd hbs hne
        | cons b rest =>
            rw [List.all_eq_false]
            refine ⟨b, ?_, ?_⟩
            · rw [List.mem_filter]
              exact ⟨by simp [hbs], by simp [hA b (by simp [hbs])]⟩
            · rw [neighbor_ok, ← hbs, hBempty]
              simp
      rw [hcond]
      simp

/-- Witness for C4: a concrete failing run with one Primary requested and no
Secondary. -/
theorem generate_layout_no_secondary_witness :
    generate_layout 1 0 2 s0 = none :=
  generate_layout_no_secondary 1 (by norm_num) 2 s0

/-- Rectangles sampled by `random_building` from unit draws are fully inside
the buffered interior of the site. -/
theorem random_building_in_bounds (t : BType) (u : ℚ × ℚ) (hu : unit_draw u) :
    in_bounds (random_building t u) := by
  obtain ⟨h1, h2, h3, h4⟩ := hu
  cases t
  · rw [random_building_A]
    refine ⟨?_, ?_, ?_, ?_⟩ <;>
      simp only [uniform, BOUNDARY_BUFFER, SITE_WIDTH, SITE_HEIGHT] <;>
      norm_num <;> linarith
  · rw [random_building_B]
    refine ⟨?_, ?_, ?_, ?_⟩ <;>
      simp only [uniform, BOUNDARY_BUFFER, SITE_WIDTH, SITE_HEIGHT] <;>
      norm_num <;> linarith

/-- C6: when every unit draw of the stream is in `[0, 1]` — the contract of
`random()` feeding `random.uniform(buffer, siteDim - dimension - buffer)` —
every rectangle of a returned layout satisfies
`BOUNDARY_BUFFER <= x`, `x + w <= SITE_WIDTH - BOUNDARY_BUFFER`,
`BOUNDARY_BUFFER <= y` and `y + h <= SITE_HEIGHT - BOUNDARY_BUFFER`. -/
theorem generate_layout_in_bounds (num_a num_b max_attempts : ℕ)
    (s : ℕ → ℚ × ℚ) (hs : ∀ n, unit_draw (s n)) (bs : List Rect)
    (h : generate_layout num_a num_b max_attempts s = some bs) :
    ∀ r ∈ bs, in_bounds r := by
  rw [generate_layout] at h
  cases hpl : place_all max_attempts
      (List.replicate num_a BType.A ++ List.replicate num_b BType.B) [] s with
  | none => rw [hpl] at h; cases h
  | some r =>
      obtain ⟨bs0, s2⟩ := r
      rw [hpl] at h
      dsimp only at h
      obtain ⟨hP, -, -⟩ :=
        place_all_spec in_bounds unit_draw max_attempts
          (fun t u hu => random_building_in_bounds t u hu) _ [] s hs
          (fun r hr => absurd hr (List.not_mem_nil r)) rfl _ _ hpl
      by_cases hall :
          (bs0.filter (fun b => b.type == BType.A)).all (neighbor_ok bs0) = true
      · rw [if_pos hall] at h
        injection h with h
        subst h
        exact hP
      · rw [if_neg hall] at h
        cases h

/-- Witness for C6: the first rectangle of a concrete successful run is in
bounds. -/
theorem generate_layout_in_bounds_witness : in_bounds ex_a :=
  generate_layout_in_bounds 1 1 1 s0
    (by
      intro n
      simp only [s0, unit_draw]
      split <;> norm_num)
    [ex_a, ex_b]
    (by
      norm_num [generate_layout, place_all, try_place, random_building_A,
        random_building_B, uniform, shift, s0, neighbor_ok, beq_iff_eq,
        BType_A_ne_B, BType_B_ne_A, ex_a, ex_b,
        check_partial_constraints, no_close_pair, rectangles_overlap, distSq,
        gap_x, gap_y, plaza, PLAZA_X, PLAZA_Y, PLAZA_SIZE, SITE_WIDTH,
        SITE_HEIGHT, MIN_BUILDING_DISTANCE, NEIGHBOR_DISTANCE, BOUNDARY_BUFFER])
    ex_a (by simp)

/-- Negation of `List.Pairwise` as an explicit offending pair (a length-two
sublist). -/
theorem not_pairwise_iff {α : Type} (R : α → α → Prop) (l : List α) :
    ¬ l.Pairwise R ↔ ∃ a b, List.Sublist [a, b] l ∧ ¬ R a b := by
  rw [List.pairwise_iff_forall_sublist]
  constructor
  · intro h
    by_contra hc
    push_neg at hc
    exact h fun {a b} hs => hc a b hs
  · rintro ⟨a, b, hs, hR⟩ h
    exact hR (h hs)

/-- C2: `check_partial_constraints` returns false iff some rectangle overlaps
the reserved plaza or some unordered pair of rectangles is strictly closer
than `MIN_BUILDING_DISTANCE`; in particular two rectangles exactly
`MIN_BUILDING_DISTANCE` apart are feasible, while at any strictly smaller
nonnegative separation they are infeasible. -/
theorem check_partial_constraints_false_iff :
    (∀ bs : List Rect, check_partial_constraints bs = false ↔
      (∃ b ∈ bs, rectangles_overlap b plaza = true) ∨
      ∃ r1 r2 : Rect, List.Sublist [r1, r2] bs ∧
        rectangle_distance r1 r2 < (MIN_BUILDING_DISTANCE : ℝ)) ∧
    check_partial_constraints [ex_a, ex_b_at MIN_BUILDING_DISTANCE] = true ∧
    ∀ d : ℚ, 0 ≤ d → d < MIN_BUILDING_DISTANCE →
      check_partial_constraints [ex_a, ex_b_at d] = false := by
  refine ⟨?_, ?_, ?_⟩
  · intro bs
    rw [← Bool.not_eq_true, check_partial_constraints_iff, not_and_or]
    apply or_congr
    · constructor
      · intro h
        push_neg at h
        obtain ⟨b, hb, hov⟩ := h
        exact ⟨b, hb, by simpa using hov⟩
      · rintro ⟨b, hb, hov⟩ h
        have := h b hb
        rw [this] at hov
        cases hov
    · rw [not_pairwise_iff]
      constructor
      · rintro ⟨r1, r2, hs, hR⟩
        refine ⟨r1, r2, hs, ?_⟩
        rw [rectangle_distance_lt_iff r1 r2 MIN_BUILDING_DISTANCE
          (by norm_num [MIN_BUILDING_DISTANCE])]
        exact not_not.1 hR
      · rintro ⟨r1, r2, hs, hR⟩
        refine ⟨r1, r2, hs, ?_⟩
        rw [rectangle_distance_lt_iff r1 r2 MIN_BUILDING_DISTANCE
          (by norm_num [MIN_BUILDING_DISTANCE])] at hR
        exact not_not.2 hR
  · norm_num [check_partial_constraints, no_close_pair, rectangles_overlap,
      distSq, gap_x, gap_y, ex_a, ex_b_at, plaza, PLAZA_X, PLAZA_Y,
      PLAZA_SIZE, SITE_WIDTH, SITE_HEIGHT, MIN_BUILDING_DISTANCE]
  · intro d hd0 hd15
    rw [MIN_BUILDING_DISTANCE] at hd15
    have hgx : gap_x ex_a (ex_b_at d) = d := by
      simp only [gap_x, ex_a, ex_b_at]
      rw [show (40 + d : ℚ) - (10 + 30) = d by ring,
        show (10 : ℚ) - (40 + d + 20) = -(50 + d) by ring,
        max_eq_right (show -(50 + d) ≤ (0 : ℚ) by linarith),
        max_eq_left hd0]
    have hgy : gap_y ex_a (ex_b_at d) = 0 := by
      simp only [gap_y, ex_a, ex_b_at]
      norm_num
    have hsq : distSq ex_a (ex_b_at d) = d * d := by
      rw [distSq, hgx, hgy]
      ring
    rw [← Bool.not_eq_true]
    intro hchk
    rw [check_partial_constraints_iff] at hchk
    have hpw := (List.pairwise_cons.1 hchk.2).1 (ex_b_at d) (by simp)
    rw [hsq] at hpw
    refine hpw ?_
    rw [MIN_BUILDING_DISTANCE]
    nlinarith

/-- C10: feasibility is antitone under adding rectangles — a feasible
extended layout has a feasible base — and, more generally, every prefix of a
feasible layout is feasible. -/
theorem check_partial_constraints_antitone :
    (∀ (S : List Rect) (c : Rect),
      check_partial_constraints (S ++ [c]) = true →
      check_partial_constraints S = true) ∧
    (∀ (l1 l2 : List Rect),
      check_partial_constraints (l1 ++ l2) = true →
      check_partial_constraints l1 = true) := by
  have happ : ∀ (l1 l2 : List Rect),
      check_partial_constraints (l1 ++ l2) = true →
      check_partial_constraints l1 = true := by
    intro l1 l2 h
    rw [check_partial_constraints_iff] at h ⊢
    exact ⟨fun b hb => h.1 b (List.mem_append_left _ hb),
      h.2.sublist (List.sublist_append_left l1 l2)⟩
  exact ⟨fun S c => happ S [c], happ⟩

/-- C7: the rectangle distance is symmetric, nonnegative, and zero whenever
the rectangles overlap or share a boundary. -/
theorem rectangle_distance_props :
    ∀ r1 r2 : Rect,
      rectangle_distance r1 r2 = rectangle_distance r2 r1 ∧
      0 ≤ rectangle_distance r1 r2 ∧
      ((rectangles_overlap r1 r2 = true ∨ shares_boundary r1 r2) →
        rectangle_distance r1 r2 = 0) := by
  intro r1 r2
  refine ⟨?_, Real.sqrt_nonneg _, ?_⟩
  · have hx : gap_x r1 r2 = gap_x r2 r1 := max_left_comm _ _ _
    have hy : gap_y r1 r2 = gap_y r2 r1 := max_left_comm _ _ _
    rw [rectangle_distance, rectangle_distance, distSq, distSq, hx, hy]
  · intro hc
    have h4 : r2.x ≤ r1.x + r1.w ∧ r1.x ≤ r2.x + r2.w ∧
        r2.y ≤ r1.y + r1.h ∧ r1.y ≤ r2.y + r2.h := by
      rcases hc with hov | hsb
      · simp only [rectangles_overlap, Bool.not_eq_true', Bool.or_eq_false_iff,
          decide_eq_false_iff_not, not_le] at hov
        exact ⟨le_of_lt hov.1.1.1, le_of_lt hov.1.1.2, le_of_lt hov.1.2,
          le_of_lt hov.2⟩
      · exact ⟨hsb.2.1, hsb.2.2.1, hsb.2.2.2.1, hsb.2.2.2.2⟩
    have hgx : gap_x r1 r2 = 0 := by
      rw [gap_x,
        max_eq_right (show r1.x - (r2.x + r2.w) ≤ (0 : ℚ) by linarith [h4.2.1]),
        max_eq_right (show r2.x - (r1.x + r1.w) ≤ (0 : ℚ) by linarith [h4.1])]
    have hgy : gap_y r1 r2 = 0 := by
      rw [gap_y,
        max_eq_right (show r1.y - (r2.y + r2.h) ≤ (0 : ℚ) by linarith [h4.2.2.2]),
        max_eq_right (show r2.y - (r1.y + r1.h) ≤ (0 : ℚ) by linarith [h4.2.2.1])]
    rw [rectangle_distance, distSq, hgx, hgy]
    norm_num

/-- C8: the per-Primary proximity contribution is monotonically non-increasing
in the distance to the nearest Secondary, clamps to exactly 0 at or beyond
`NEIGHBOR_DISTANCE`, and never goes negative. -/
theorem proximity_contrib_props :
    (∀ d e : ℝ, d ≤ e → proximity_contrib e ≤ proximity_contrib d) ∧
    (∀ d : ℝ, (NEIGHBOR_DISTANCE : ℝ) ≤ d → proximity_contrib d = 0) ∧
    ∀ d : ℝ, 0 ≤ proximity_contrib d := by
  refine ⟨?_, ?_, fun d => le_max_left 0 _⟩
  · intro d e hde
    exact max_le_max le_rfl (by linarith)
  · intro d hd
    rw [proximity_contrib, max_eq_left (by linarith)]

/-- With at least one Secondary present, the proximity loop never raises and
computes the sum of the per-Primary contributions. -/
theorem proximity_sum_eq (tb : List Rect) (htb : tb ≠ []) :
    ∀ l : List Rect, proximity_sum tb l =
      some ((l.map (fun a => proximity_contrib
        ((py_min_r (tb.map (fun b => rectangle_distance a b))).getD 0))).sum) := by
  intro l
  induction l with
  | nil => simp [proximity_sum]
  | cons a rest ih =>
      obtain ⟨b0, tbrest, rfl⟩ : ∃ b0 tbrest, tb = b0 :: tbrest := by
        cases tb with
        | nil => exact absurd rfl htb
        | cons x xs => exact ⟨x, xs, rfl⟩
      simp [proximity_sum, py_min_r, ih]

/-- A nonempty layout with no Primary, or with some Secondary, always gets a
score from `compute_score`. -/
theorem compute_score_some (bs : List Rect) (hne : bs ≠ [])
    (h : bs.filter (fun b => b.type == BType.A) = [] ∨
         bs.filter (fun b => b.type == BType.B) ≠ []) :
    ∃ v, compute_score bs = some v := by
  obtain ⟨p, hp⟩ : ∃ p, proximity_sum (bs.filter (fun b => b.type == BType.B))
      (bs.filter (fun b => b.type == BType.A)) = some p := by
    rcases h with hA | hB
    · rw [hA]
      exact ⟨0, rfl⟩
    · rw [proximity_sum_eq _ hB]
      exact ⟨_, rfl⟩
  obtain ⟨r, rl, rfl⟩ : ∃ r rl, bs = r :: rl := by
    cases bs with
    | nil => exact absurd rfl hne
    | cons r rl => exact ⟨r, rl, rfl⟩
  simp only [compute_score]
  rw [hp]
  dsimp only
  exact ⟨_, rfl⟩

/-- C5 (amended): `compute_score` fails (is `none`, the model of the Python
`ValueError`) exactly when the layout has at least one Primary rectangle but
no Secondary rectangle, or is entirely empty; a nonempty layout with zero
Primary rectangles silently gets a score. -/
theorem compute_score_none_iff :
    ∀ bs : List Rect, compute_score bs = none ↔
      (bs.filter (fun b => b.type == BType.A) ≠ [] ∧
       bs.filter (fun b => b.type == BType.B) = []) ∨ bs = [] := by
  intro bs
  constructor
  · intro h
    by_contra hc
    push_neg at hc
    obtain ⟨hAB, hne⟩ := hc
    have h' : bs.filter (fun b => b.type == BType.A) = [] ∨
        bs.filter (fun b => b.type == BType.B) ≠ [] := by
      rcases eq_or_ne (bs.filter (fun b => b.type == BType.A)) [] with hA | hA
      · exact Or.inl hA
      · exact Or.inr (hAB hA)
    obtain ⟨v, hv⟩ := compute_score_some bs hne h'
    rw [hv] at h
    cases h
  · rintro (⟨hA, hB⟩ | rfl)
    · obtain ⟨a, ta, hta⟩ : ∃ a ta,
          bs.filter (fun b => b.type == BType.A) = a :: ta := by
        cases hfa : bs.filter (fun b => b.type == BType.A) with
        | nil => exact absurd hfa hA
        | cons a ta => exact ⟨a, ta, rfl⟩
      simp only [compute_score]
      rw [hta, hB]
      rfl
    · rfl

/-- Counterexample for C5: a layout with zero Primary rectangles does not
fail loudly — `compute_score` silently returns the degenerate score 32. -/
theorem compute_score_zero_primary : compute_score [b_only] = some 32 := by
  have h1 : List.filter (fun b => b.type == BType.A) [b_only] = [] := rfl
  have h2 : List.filter (fun b => b.type == BType.B) [b_only] = [b_only] := rfl
  simp only [compute_score, h1, h2, proximity_sum, List.map_cons, List.map_nil,
    List.sum_cons, List.sum_nil]
  norm_num [b_only]

/-- C3: on a layout with at least one Primary and at least one Secondary
rectangle, `compute_score` returns exactly
`20 * count + 0.03 * total_area + 3.0 * proximity_score - 0.15 * spread_penalty`,
with the proximity reward summing `max(0, NEIGHBOR_DISTANCE - nearest
Secondary distance)` over Primary rectangles and the spread penalty taken
over rectangle origins. -/
theorem compute_score_eq (layout : List Rect)
    (hA : ∃ a ∈ layout, a.type = BType.A)
    (hB : ∃ b ∈ layout, b.type = BType.B) :
    compute_score layout =
      some (20 * (layout.length : ℝ)
        + 0.03 * (((layout.map (fun b => b.w * b.h)).sum : ℚ) : ℝ)
        + 3.0 * spec_proximity_score layout
        - 0.15 * ((spec_spread_penalty layout : ℚ) : ℝ)) := by
  obtain ⟨a0, ha0, ha0A⟩ := hA
  obtain ⟨b0, hb0, hb0B⟩ := hB
  have htb : layout.filter (fun b => b.type == BType.B) ≠ [] := by
    intro hnil
    have hmem : b0 ∈ layout.filter (fun b => b.type == BType.B) :=
      List.mem_filter.2 ⟨hb0, by simp [hb0B]⟩
    rw [hnil] at hmem
    cases hmem
  obtain ⟨r, rl, rfl⟩ : ∃ r rl, layout = r :: rl := by
    cases layout with
    | nil => cases hb0
    | cons r rl => exact ⟨r, rl, rfl⟩
  simp only [compute_score]
  rw [proximity_sum_eq _ htb]
  dsimp only
  rfl

/-- Witness for C3: the score formula at a concrete two-building layout with
one Primary and one Secondary. -/
theorem compute_score_eq_witness :
    (∃ a ∈ [ex_a, ex_b], a.type = BType.A) ∧
    (∃ b ∈ [ex_a, ex_b], b.type = BType.B) ∧
    compute_score [ex_a, ex_b] =
      some (20 * (([ex_a, ex_b] : List Rect).length : ℝ)
        + 0.03 * ((([ex_a, ex_b].map (fun b => b.w * b.h)).sum : ℚ) : ℝ)
        + 3.0 * spec_proximity_score [ex_a, ex_b]
        - 0.15 * ((spec_spread_penalty [ex_a, ex_b] : ℚ) : ℝ)) :=
  ⟨by decide, by decide, compute_score_eq [ex_a, ex_b] (by decide) (by decide)⟩

end LayoutGen
